import Mathlib

/-!
Shallow embedding of the run branch of main() in src/streamlit_app.py
(llmwhisperer-extractor).  The app validates its inputs, persists the
upload to a temporary file, calls the external LLMWhisperer client
synchronously, and renders the result.  We embed the run handler as a
pure function from the form inputs and the (abstract) outcome of the
client call to a record of the observable effects: network call,
temp-file creation and removal, and everything displayed.
-/

/-- Minimal model of the Python values flowing through the handler:
the whisper result dict and its nested fields (None, strings, dicts). -/
inductive Json where
  | null : Json
  | str (s : String) : Json
  | obj (fields : List (String × Json)) : Json
deriving Repr

namespace Json

/-- Association lookup on a dict; none on non-dicts or missing keys
(Python d.get(k) with no such key). -/
def lookup : Json → String → Option Json
  | .obj fields, k => go fields k
  | _, _ => none
where go : List (String × Json) → String → Option Json
  | [], _ => none
  | (k', v) :: rest, k => if k' = k then some v else go rest k

/-- Python d.get(k, default): the stored value when the key is present,
else the default. -/
def pyGet (j : Json) (k : String) (default : Json) : Json :=
  (j.lookup k).getD default

/-- Python truthiness of the modelled values: None and empty
strings/dicts are falsy. -/
def truthy : Json → Bool
  | .null => false
  | .str s => s ≠ ""
  | .obj fields => !fields.isEmpty

/-- Python "a or b" on the modelled values. -/
def pyOr (a b : Json) : Json :=
  if a.truthy then a else b

/-- Python equality of a value with a string literal (status ==
"processed"): true only for the equal string, false for None, dicts
and other strings. -/
def eqStr : Json → String → Bool
  | .str t, s => t = s
  | _, _ => false

/-- Reads a string value; the source assumes the field is a string
(it calls .strip() / .encode() on it), so non-strings do not occur on
the paths the source exercises. -/
def asString : Json → String
  | .str s => s
  | _ => ""

/-- Python str()/f-string rendering of a value nested inside a
container, i.e. repr(): strings get quotes, None prints as None. -/
def pyRepr : Json → String
  | .null => "None"
  | .str s => "'" ++ s ++ "'"
  | .obj fields => "\x7b" ++ fieldsRepr fields ++ "\x7d"
where fieldsRepr : List (String × Json) → String
  | [] => ""
  | [(k, v)] => "'" ++ k ++ "': " ++ pyRepr v
  | (k, v) :: rest => "'" ++ k ++ "': " ++ pyRepr v ++ ", " ++ fieldsRepr rest

/-- Python str() at top level, as used by an f-string: a string prints
without quotes, None as None, a dict via repr. -/
def pyStr : Json → String
  | .null => "None"
  | .str s => s
  | .obj fields => "\x7b" ++ pyRepr.fieldsRepr fields ++ "\x7d"

/-- Python len() of a dict (the source applies len to the metadata
dict). -/
def objLen : Json → Nat
  | .obj fields => fields.length
  | _ => 0

end Json

/-- Python-style whitespace test for str.strip(); the source only ever
strips, so the exact character set is shared between the model of
strip and the statements about it. -/
def pyIsSpace (c : Char) : Bool :=
  c = ' ' || c = '\t' || c = '\n' || c = '\x0b' || c = '\x0c' || c = '\r'

/-- Python str.strip(): drop whitespace from both ends. -/
def pyStrip (s : String) : String :=
  String.mk (((s.toList.dropWhile pyIsSpace).reverse.dropWhile pyIsSpace).reverse)

/-- An uploaded file as the handler sees it: a name and raw bytes. -/
structure UploadedFile where
  name : String
  content : List Nat
deriving Repr, DecidableEq

/-- The form inputs read by the run branch of main(): the optional
upload, the mode selector, the pages string, and the two border
checkboxes. -/
structure RunInput where
  uploaded : Option UploadedFile
  mode : String
  pages : String
  vert : Bool
  horiz : Bool
deriving Repr, DecidableEq

/-- The outcome of the call to client.whisper(...): either a returned
result dict, or a raised exception carrying a message and an optional
status_code attribute (getattr defaults cover exceptions without
them). -/
inductive WhisperOutcome where
  | ok (result : Json) : WhisperOutcome
  | exn (message : String) (statusCode : Option Nat) : WhisperOutcome
deriving Repr

/-- The observable effects of one run of the handler: which external
actions happened and what was displayed. -/
structure Effects where
  networkCalled : Bool := false
  clientConstructed : Bool := false
  tempCreated : Bool := false
  tempRemoveAttempted : Bool := false
  tempRemoved : Bool := false
  stopped : Bool := false
  displayedWarning : Option String := none
  displayedError : Option String := none
  displayedSuccess : Bool := false
  displayedText : Option String := none
  downloadOffered : Option String := none
  noTextWarning : Bool := false
  captionPages : Option Nat := none
deriving Repr, DecidableEq

/-- The arguments main() passes to client.whisper (lines 79-87 of the
source). -/
structure WhisperArgs where
  filePath : String
  waitForCompletion : Bool
  mode : String
  pagesToExtract : String
  markVerticalLines : Bool
  markHorizontalLines : Bool
  waitTimeout : Nat
deriving Repr, DecidableEq

/-- Builds the whisper call arguments exactly as the source does:
wait_for_completion=True, pages or "", bool() of the checkboxes, and
wait_timeout=200. -/
def whisperArgsOf (inp : RunInput) (tmpPath : String) : WhisperArgs :=
  { filePath := tmpPath
    waitForCompletion := true
    mode := inp.mode
    pagesToExtract := if inp.pages ≠ "" then inp.pages else ""
    markVerticalLines := inp.vert
    markHorizontalLines := inp.horiz
    waitTimeout := 200 }

/-- Python truthiness of the status_code attribute (if code:). -/
def codeTruthy : Option Nat → Bool
  | some c => c ≠ 0
  | none => false

/-- The error string of the except-branch (lines 118-123): the code is
included exactly when the status_code attribute is present and
truthy. -/
def errorText (msg : String) (code : Option Nat) : String :=
  match code with
  | some c => if c ≠ 0 then "Error (" ++ toString c ++ "): " ++ msg
              else "Error: " ++ msg
  | none => "Error: " ++ msg

/-- The extraction sub-dict: result.get("extraction", \x7b\x7d) or \x7b\x7d
(line 94). -/
def extractionOf (result : Json) : Json :=
  Json.pyOr (Json.pyGet result "extraction" (Json.obj [])) (Json.obj [])

/-- The extracted text: extraction.get("result_text", "") or ""
(line 95); only the result_text key is consulted. -/
def extractedTextOf (result : Json) : String :=
  (Json.pyOr (Json.pyGet (extractionOf result) "result_text" (Json.str ""))
    (Json.str "")).asString

/-- The metadata dict: extraction.get("metadata", \x7b\x7d) or \x7b\x7d
(line 96). -/
def metadataOf (result : Json) : Json :=
  Json.pyOr (Json.pyGet (extractionOf result) "metadata" (Json.obj []))
    (Json.obj [])

/-- The error string shown when status is not processed (line 91). -/
def statusErrorText (result : Json) : String :=
  "Processing status: " ++ (Json.pyGet result "status" Json.null).pyStr ++
    "\n\nMessage: " ++ (Json.pyGet result "message" Json.null).pyStr

/-- The warning shown when horiz is set without vert (line 66). -/
def horizRequiresVertText : String :=
  "--horiz requires --vert. Please enable vertical borders."

/-- One run of the handler (lines 60-129 of the source).  The outcome
parameter abstracts the external client call; removeFails abstracts
os.remove in the finally block raising.  Validation failures stop
before the try block, so before the temp file, the client and the
network.  Inside the try block the temp file is created first; the
finally block always attempts its removal, swallowing any failure. -/
def runExtract (inp : RunInput) (outcome : WhisperOutcome)
    (removeFails : Bool) : Effects :=
  if inp.uploaded.isNone then
    { displayedWarning := some "Please upload a file.", stopped := true }
  else if inp.horiz && !inp.vert then
    { displayedError := some horizRequiresVertText, stopped := true }
  else
    let base : Effects :=
      { tempCreated := true, clientConstructed := true, networkCalled := true }
    let afterTry : Effects :=
      match outcome with
      | .exn msg code =>
          { base with displayedError := some (errorText msg code) }
      | .ok result =>
          if !(Json.pyGet result "status" Json.null).eqStr "processed" then
            { base with displayedError := some (statusErrorText result) }
          else
            let text := extractedTextOf result
            let md := metadataOf result
            let withText : Effects :=
              if pyStrip text ≠ "" then
                { base with displayedSuccess := true,
                            displayedText := some text,
                            downloadOffered := some text }
              else
                { base with displayedSuccess := true, noTextWarning := true }
            if md.truthy then
              { withText with captionPages := some md.objLen }
            else withText
    { afterTry with tempRemoveAttempted := true, tempRemoved := !removeFails }

/-- Modelled from the spec: the synchronous discipline of the external
client call (LLMWhispererClientV2.whisper is vendor code, not part of
this repository).  With wait_for_completion the call blocks up to
waitTimeout seconds; if the service finishes within the bound it
returns the terminal result directly, otherwise it fails with
Timeout. -/
inductive SyncResult where
  | terminal (r : Json) : SyncResult
  | timedOutErr : SyncResult
deriving Repr

/-- Modelled from the spec: the blocking whisper call, abstracting the
service by the number of seconds it needs to finish and the terminal
result it would produce. -/
def whisperSync (args : WhisperArgs) (serviceSeconds : Nat)
    (terminalResult : Json) : SyncResult :=
  if serviceSeconds ≤ args.waitTimeout then SyncResult.terminal terminalResult
  else SyncResult.timedOutErr

/-- Job status as reported by the service; processed and failed are
the terminal states. -/
inductive JobStatus where
  | processing : JobStatus
  | processed : JobStatus
  | failed : JobStatus
  | unknown : JobStatus
deriving Repr, DecidableEq

/-- The terminal statuses of the polling state machine. -/
def JobStatus.isTerminal : JobStatus → Bool
  | .processed => true
  | .failed => true
  | _ => false

/-- The outcome of the polling loop: a retrieved result (retrieve was
called), a service-reported failure, or a local timeout. -/
inductive PollResult where
  | retrieved (r : Json) : PollResult
  | extractionFailed : PollResult
  | timedOut : PollResult
deriving Repr

/-- Whether the polling loop called retrieve: exactly on the
retrieved outcome. -/
def PollResult.retrieveCalled : PollResult → Bool
  | .retrieved _ => true
  | _ => false

/-- Modelled from the spec: the body of pollUntilTerminal (this
repository uses wait_for_completion, so the explicit polling loop
exists only as the spec's design-level state machine).  Polls the
status at the current elapsed time; on processed it retrieves, on
failed it fails, otherwise it sleeps one interval and polls again,
with enough polls left to cover every multiple of the interval not
exceeding the timeout. -/
def pollAux (statusAt : Nat → JobStatus) (retrieveResult : Json)
    (interval : Nat) : Nat → Nat → PollResult
  | _, 0 => PollResult.timedOut
  | elapsed, n + 1 =>
    match statusAt elapsed with
    | .processed => PollResult.retrieved retrieveResult
    | .failed => PollResult.extractionFailed
    | _ => pollAux statusAt retrieveResult interval (elapsed + interval) n

/-- Modelled from the spec: pollUntilTerminal(handle, timeoutSeconds,
pollIntervalSeconds) — repeatedly call pollStatus at the fixed
interval until the status is processed or failed, or until the
elapsed time exceeds timeoutSeconds; polls happen at elapsed times
0, i, 2i, ... while the elapsed time is within the timeout. -/
def pollUntilTerminal (statusAt : Nat → JobStatus) (retrieveResult : Json)
    (timeoutSeconds pollIntervalSeconds : Nat) : PollResult :=
  pollAux statusAt retrieveResult pollIntervalSeconds 0
    (timeoutSeconds / pollIntervalSeconds + 1)

/-- An example form input that passes local validation. -/
def exampleInput : RunInput :=
  { uploaded := some { name := "doc.pdf", content := [37, 80, 68, 70] }
    mode := "high_quality"
    pages := ""
    vert := false
    horiz := false }

/-- A processed payload carrying its text under the result_text key. -/
def payloadResultText : Json :=
  Json.obj [("status", Json.str "processed"),
            ("extraction", Json.obj [("result_text", Json.str "hello")])]

/-- A processed payload carrying its text under the extracted_text
key (the alternate key name the spec mentions). -/
def payloadExtractedText : Json :=
  Json.obj [("status", Json.str "processed"),
            ("extraction", Json.obj [("extracted_text", Json.str "hello")])]

/-- C1: for every request with mark_horizontal_lines=true and
mark_vertical_lines=false, the run fails locally (an error or warning
is reported and execution stops) before any network call,
temporary-file creation, or client construction. -/
theorem claim1_horiz_without_vert_stops_before_io
    (inp : RunInput) (outcome : WhisperOutcome) (removeFails : Bool)
    (hh : inp.horiz = true) (hv : inp.vert = false) :
    (runExtract inp outcome removeFails).networkCalled = false ∧
    (runExtract inp outcome removeFails).tempCreated = false ∧
    (runExtract inp outcome removeFails).clientConstructed = false ∧
    (runExtract inp outcome removeFails).stopped = true ∧
    ((runExtract inp outcome removeFails).displayedError.isSome = true ∨
     (runExtract inp outcome removeFails).displayedWarning.isSome = true) := by
  cases hu : inp.uploaded.isNone <;>
    simp [runExtract, hu, hh, hv]

/-- Witness for C1 at a concrete horiz-without-vert input. -/
theorem claim1_witness :
    (runExtract { exampleInput with horiz := true }
      (WhisperOutcome.ok payloadResultText) false).networkCalled = false ∧
    (runExtract { exampleInput with horiz := true }
      (WhisperOutcome.ok payloadResultText) false).tempCreated = false ∧
    (runExtract { exampleInput with horiz := true }
      (WhisperOutcome.ok payloadResultText) false).clientConstructed = false ∧
    (runExtract { exampleInput with horiz := true }
      (WhisperOutcome.ok payloadResultText) false).stopped = true ∧
    ((runExtract { exampleInput with horiz := true }
      (WhisperOutcome.ok payloadResultText) false).displayedError.isSome = true ∨
     (runExtract { exampleInput with horiz := true }
      (WhisperOutcome.ok payloadResultText) false).displayedWarning.isSome = true) :=
  claim1_horiz_without_vert_stops_before_io _ _ _ rfl rfl

/-- C7: for every run with no file provided, the run warns and stops,
with no network call, no temporary file and no client construction. -/
theorem claim7_no_file_stops_before_io
    (inp : RunInput) (outcome : WhisperOutcome) (removeFails : Bool)
    (h : inp.uploaded = none) :
    (runExtract inp outcome removeFails).displayedWarning
      = some "Please upload a file." ∧
    (runExtract inp outcome removeFails).stopped = true ∧
    (runExtract inp outcome removeFails).networkCalled = false ∧
    (runExtract inp outcome removeFails).tempCreated = false ∧
    (runExtract inp outcome removeFails).clientConstructed = false := by
  simp [runExtract, h]

/-- Witness for C7 at a concrete input without an upload. -/
theorem claim7_witness :
    (runExtract { exampleInput with uploaded := none }
      (WhisperOutcome.ok payloadResultText) false).displayedWarning
      = some "Please upload a file." ∧
    (runExtract { exampleInput with uploaded := none }
      (WhisperOutcome.ok payloadResultText) false).stopped = true ∧
    (runExtract { exampleInput with uploaded := none }
      (WhisperOutcome.ok payloadResultText) false).networkCalled = false ∧
    (runExtract { exampleInput with uploaded := none }
      (WhisperOutcome.ok payloadResultText) false).tempCreated = false ∧
    (runExtract { exampleInput with uploaded := none }
      (WhisperOutcome.ok payloadResultText) false).clientConstructed = false :=
  claim7_no_file_stops_before_io _ _ _ rfl

/-- C3: for every run that passes local validation, the temporary
file is created and its removal is attempted on every exit path
(result, failure status, or raised exception); when the best-effort
removal itself does not fail, the file is removed. -/
theorem claim3_temp_file_always_cleaned
    (inp : RunInput) (outcome : WhisperOutcome) (removeFails : Bool)
    (hu : inp.uploaded.isNone = false)
    (hv : (inp.horiz && !inp.vert) = false) :
    (runExtract inp outcome removeFails).tempCreated = true ∧
    (runExtract inp outcome removeFails).tempRemoveAttempted = true ∧
    (removeFails = false → (runExtract inp outcome removeFails).tempRemoved = true) := by
  cases outcome with
  | exn msg code => simp [runExtract, hu, hv]
  | ok result =>
    refine ⟨?_, ?_, ?_⟩ <;>
      · simp only [runExtract, hu, hv]
        split <;> (try split) <;> (try split) <;> (try split) <;> simp_all

/-- Witness for C3 at a concrete validated input with a successful
outcome. -/
theorem claim3_witness :
    (runExtract exampleInput (WhisperOutcome.ok payloadResultText)
      false).tempCreated = true ∧
    (runExtract exampleInput (WhisperOutcome.ok payloadResultText)
      false).tempRemoveAttempted = true ∧
    (false = false → (runExtract exampleInput
      (WhisperOutcome.ok payloadResultText) false).tempRemoved = true) :=
  claim3_temp_file_always_cleaned _ _ _ rfl rfl

/-- C4: the submission is synchronous with wait_for_completion=True and
a wait timeout of 200 seconds; under the spec-modelled blocking client,
a service finishing within the bound yields the terminal result
directly, and a service needing longer fails with Timeout. -/
theorem claim4_sync_submit_bounded_wait
    (inp : RunInput) (tmpPath : String) (serviceSeconds : Nat)
    (terminalResult : Json) :
    (whisperArgsOf inp tmpPath).waitForCompletion = true ∧
    (whisperArgsOf inp tmpPath).waitTimeout = 200 ∧
    whisperSync (whisperArgsOf inp tmpPath) serviceSeconds terminalResult
      = if serviceSeconds ≤ 200 then SyncResult.terminal terminalResult
        else SyncResult.timedOutErr :=
  ⟨rfl, rfl, by simp [whisperSync, whisperArgsOf]⟩

/-- C5: for every result whose status is not the string "processed",
the run shows the failure error carrying the service-reported status
and message, and displays no extracted text, offers no download and
shows no success banner. -/
theorem claim5_unprocessed_status_fails
    (inp : RunInput) (result : Json) (removeFails : Bool)
    (hu : inp.uploaded.isNone = false)
    (hv : (inp.horiz && !inp.vert) = false)
    (hs : (Json.pyGet result "status" Json.null).eqStr "processed" = false) :
    (runExtract inp (WhisperOutcome.ok result) removeFails).displayedError
      = some (statusErrorText result) ∧
    (runExtract inp (WhisperOutcome.ok result) removeFails).displayedText
      = none ∧
    (runExtract inp (WhisperOutcome.ok result) removeFails).downloadOffered
      = none ∧
    (runExtract inp (WhisperOutcome.ok result) removeFails).displayedSuccess
      = false ∧
    statusErrorText result
      = "Processing status: " ++ (Json.pyGet result "status" Json.null).pyStr
        ++ "\n\nMessage: " ++ (Json.pyGet result "message" Json.null).pyStr := by
  refine ⟨?_, ?_, ?_, ?_, rfl⟩ <;> simp [runExtract, hu, hv, hs]

/-- Witness for C5 at a concrete failed payload. -/
theorem claim5_witness :
    (runExtract exampleInput (WhisperOutcome.ok (Json.obj
      [("status", Json.str "failed"), ("message", Json.str "bad input")]))
      false).displayedError
      = some (statusErrorText (Json.obj
        [("status", Json.str "failed"), ("message", Json.str "bad input")])) ∧
    (runExtract exampleInput (WhisperOutcome.ok (Json.obj
      [("status", Json.str "failed"), ("message", Json.str "bad input")]))
      false).displayedText = none ∧
    (runExtract exampleInput (WhisperOutcome.ok (Json.obj
      [("status", Json.str "failed"), ("message", Json.str "bad input")]))
      false).downloadOffered = none ∧
    (runExtract exampleInput (WhisperOutcome.ok (Json.obj
      [("status", Json.str "failed"), ("message", Json.str "bad input")]))
      false).displayedSuccess = false ∧
    statusErrorText (Json.obj
      [("status", Json.str "failed"), ("message", Json.str "bad input")])
      = "Processing status: "
        ++ (Json.pyGet (Json.obj [("status", Json.str "failed"),
             ("message", Json.str "bad input")]) "status" Json.null).pyStr
        ++ "\n\nMessage: "
        ++ (Json.pyGet (Json.obj [("status", Json.str "failed"),
             ("message", Json.str "bad input")]) "message" Json.null).pyStr :=
  claim5_unprocessed_status_fails _ _ _ rfl rfl rfl

/-- Helper: the removeFails flag only affects the tempRemoved field;
every displayed output of the run is unchanged by a failing cleanup. -/
theorem runExtract_display_indep_of_removeFails
    (inp : RunInput) (outcome : WhisperOutcome) (removeFails : Bool) :
    (runExtract inp outcome removeFails).displayedError
      = (runExtract inp outcome false).displayedError ∧
    (runExtract inp outcome removeFails).displayedWarning
      = (runExtract inp outcome false).displayedWarning ∧
    (runExtract inp outcome removeFails).displayedText
      = (runExtract inp outcome false).displayedText ∧
    (runExtract inp outcome removeFails).downloadOffered
      = (runExtract inp outcome false).downloadOffered ∧
    (runExtract inp outcome removeFails).displayedSuccess
      = (runExtract inp outcome false).displayedSuccess ∧
    (runExtract inp outcome removeFails).noTextWarning
      = (runExtract inp outcome false).noTextWarning ∧
    (runExtract inp outcome removeFails).captionPages
      = (runExtract inp outcome false).captionPages := by
  refine ⟨?_, ?_, ?_, ?_, ?_, ?_, ?_⟩ <;>
    · simp only [runExtract]
      split <;> (try split) <;> rfl

/-- C6: every exception raised during extraction surfaces to the user
with its message, prefixed by its status code when one is present (and
truthy), and a failing best-effort cleanup of the temporary file never
changes any displayed output. -/
theorem claim6_errors_surface_cleanup_never_masks
    (inp : RunInput) (outcome : WhisperOutcome) (removeFails : Bool)
    (msg : String) (c : Nat)
    (hu : inp.uploaded.isNone = false)
    (hv : (inp.horiz && !inp.vert) = false)
    (hc : c ≠ 0) :
    (runExtract inp (WhisperOutcome.exn msg (some c)) removeFails).displayedError
      = some ("Error (" ++ toString c ++ "): " ++ msg) ∧
    (runExtract inp (WhisperOutcome.exn msg none) removeFails).displayedError
      = some ("Error: " ++ msg) ∧
    (runExtract inp outcome removeFails).displayedError
      = (runExtract inp outcome false).displayedError ∧
    (runExtract inp outcome removeFails).displayedText
      = (runExtract inp outcome false).displayedText ∧
    (runExtract inp outcome removeFails).downloadOffered
      = (runExtract inp outcome false).downloadOffered ∧
    (runExtract inp outcome removeFails).displayedSuccess
      = (runExtract inp outcome false).displayedSuccess ∧
    (runExtract inp outcome removeFails).displayedWarning
      = (runExtract inp outcome false).displayedWarning := by
  have hind := runExtract_display_indep_of_removeFails inp outcome removeFails
  refine ⟨?_, ?_, hind.1, hind.2.2.1, hind.2.2.2.1, hind.2.2.2.2.1, hind.2.1⟩ <;>
    simp [runExtract, hu, hv, errorText, hc]

/-- Witness for C6 at a concrete exception with status code 429. -/
theorem claim6_witness :
    (runExtract exampleInput
      (WhisperOutcome.exn "rate limited" (some 429)) true).displayedError
      = some ("Error (" ++ toString 429 ++ "): " ++ "rate limited") ∧
    (runExtract exampleInput
      (WhisperOutcome.exn "rate limited" none) true).displayedError
      = some ("Error: " ++ "rate limited") ∧
    (runExtract exampleInput (WhisperOutcome.ok payloadResultText)
      true).displayedError
      = (runExtract exampleInput (WhisperOutcome.ok payloadResultText)
        false).displayedError ∧
    (runExtract exampleInput (WhisperOutcome.ok payloadResultText)
      true).displayedText
      = (runExtract exampleInput (WhisperOutcome.ok payloadResultText)
        false).displayedText ∧
    (runExtract exampleInput (WhisperOutcome.ok payloadResultText)
      true).downloadOffered
      = (runExtract exampleInput (WhisperOutcome.ok payloadResultText)
        false).downloadOffered ∧
    (runExtract exampleInput (WhisperOutcome.ok payloadResultText)
      true).displayedSuccess
      = (runExtract exampleInput (WhisperOutcome.ok payloadResultText)
        false).displayedSuccess ∧
    (runExtract exampleInput (WhisperOutcome.ok payloadResultText)
      true).displayedWarning
      = (runExtract exampleInput (WhisperOutcome.ok payloadResultText)
        false).displayedWarning :=
  claim6_errors_surface_cleanup_never_masks exampleInput
    (WhisperOutcome.ok payloadResultText) true "rate limited" 429
    rfl rfl (by decide)

/-- C2 counterexample: the code reads only the result_text key
(line 95), so a processed payload carrying its text under the
alternate extracted_text key yields no displayed text, while the same
text under result_text is displayed: the two payload shapes are not
treated alike. -/
theorem claim2_counterexample :
    (runExtract exampleInput (WhisperOutcome.ok payloadResultText)
      false).displayedText = some "hello" ∧
    (runExtract exampleInput (WhisperOutcome.ok payloadExtractedText)
      false).displayedText = none ∧
    (runExtract exampleInput (WhisperOutcome.ok payloadExtractedText)
      false).downloadOffered = none ∧
    (runExtract exampleInput (WhisperOutcome.ok payloadExtractedText)
      false).noTextWarning = true :=
  ⟨rfl, rfl, rfl, rfl⟩

/-- C2 amended: only the result_text key is recognized as carrying the
extracted text — a payload with the text under result_text yields that
text, and any payload whose extraction dict has no result_text key
(such as one using only extracted_text) yields the empty text. -/
theorem claim2_amended_only_result_text
    (s : String) (result : Json)
    (hmiss : (extractionOf result).lookup "result_text" = none) :
    extractedTextOf (Json.obj [("status", Json.str "processed"),
      ("extraction", Json.obj [("result_text", Json.str s)])]) = s ∧
    extractedTextOf result = "" := by
  constructor
  · by_cases hs : s = "" <;>
      simp [extractedTextOf, extractionOf, Json.pyOr, Json.pyGet,
        Json.lookup, Json.lookup.go, Json.truthy, Json.asString, hs]
  · simp [extractedTextOf, Json.pyGet, hmiss, Json.pyOr, Json.truthy,
      Json.asString]

/-- Witness for the amended C2 at the concrete payloads. -/
theorem claim2_amended_witness :
    extractedTextOf (Json.obj [("status", Json.str "processed"),
      ("extraction", Json.obj [("result_text", Json.str "hello")])])
      = "hello" ∧
    extractedTextOf payloadExtractedText = "" :=
  claim2_amended_only_result_text "hello" payloadExtractedText rfl

/-- C8: a processed payload whose extraction dict is missing or null,
or whose metadata field is missing or null, yields the empty metadata
dict, and the run still succeeds: the success banner is shown and no
page-count caption is displayed, rather than any error. -/
theorem claim8_absent_metadata_tolerated
    (inp : RunInput) (result : Json) (removeFails : Bool)
    (hu : inp.uploaded.isNone = false)
    (hv : (inp.horiz && !inp.vert) = false)
    (hs : (Json.pyGet result "status" Json.null).eqStr "processed" = true)
    (hm : (extractionOf result).lookup "metadata" = none ∨
          (extractionOf result).lookup "metadata" = some Json.null) :
    metadataOf result = Json.obj [] ∧
    (runExtract inp (WhisperOutcome.ok result) removeFails).displayedSuccess
      = true ∧
    (runExtract inp (WhisperOutcome.ok result) removeFails).displayedError
      = none ∧
    (runExtract inp (WhisperOutcome.ok result) removeFails).captionPages
      = none := by
  have hmd : metadataOf result = Json.obj [] := by
    rcases hm with h | h <;>
      simp [metadataOf, Json.pyGet, h, Json.pyOr, Json.truthy]
  refine ⟨hmd, ?_, ?_, ?_⟩ <;>
    · simp only [runExtract, hu, hv, hs, hmd]
      split <;> (try split) <;> (try split) <;> (try split) <;>
        simp_all [hmd, Json.truthy]

/-- Witness for C8 at a concrete processed payload without metadata. -/
theorem claim8_witness :
    metadataOf payloadResultText = Json.obj [] ∧
    (runExtract exampleInput (WhisperOutcome.ok payloadResultText)
      false).displayedSuccess = true ∧
    (runExtract exampleInput (WhisperOutcome.ok payloadResultText)
      false).displayedError = none ∧
    (runExtract exampleInput (WhisperOutcome.ok payloadResultText)
      false).captionPages = none :=
  claim8_absent_metadata_tolerated _ _ _ rfl rfl rfl (Or.inl rfl)

/-- Helper: if every status polled during the loop is non-terminal,
the polling loop exhausts its budget and times out. -/
theorem pollAux_timedOut_of_nonterminal
    (statusAt : Nat → JobStatus) (r : Json) (interval : Nat) :
    ∀ (n elapsed : Nat),
      (∀ j, j < n → (statusAt (elapsed + j * interval)).isTerminal = false) →
      pollAux statusAt r interval elapsed n = PollResult.timedOut := by
  intro n
  induction n with
  | zero => intro elapsed _; rfl
  | succ m ih =>
    intro elapsed h
    have h0 : (statusAt elapsed).isTerminal = false := by
      have := h 0 (Nat.succ_pos m)
      simpa using this
    have hrest : ∀ j, j < m →
        (statusAt (elapsed + interval + j * interval)).isTerminal = false := by
      intro j hj
      have hmem := h (j + 1) (Nat.succ_lt_succ hj)
      have heq : elapsed + (j + 1) * interval
          = elapsed + interval + j * interval := by ring
      rw [heq] at hmem
      exact hmem
    have htail := ih (elapsed + interval) hrest
    cases hst : statusAt elapsed with
    | processed => rw [hst] at h0; exact absurd h0 (by decide)
    | failed => rw [hst] at h0; exact absurd h0 (by decide)
    | processing => simp [pollAux, hst, htail]
    | unknown => simp [pollAux, hst, htail]

/-- C9: for every status sequence that never reaches a terminal state
within the configured timeout, pollUntilTerminal fails with Timeout
and never calls retrieve. -/
theorem claim9_poll_times_out_without_retrieve
    (statusAt : Nat → JobStatus) (retrieveResult : Json)
    (timeoutSeconds pollIntervalSeconds : Nat)
    (hpos : 0 < pollIntervalSeconds)
    (h : ∀ t, t ≤ timeoutSeconds → (statusAt t).isTerminal = false) :
    pollUntilTerminal statusAt retrieveResult timeoutSeconds
      pollIntervalSeconds = PollResult.timedOut ∧
    (pollUntilTerminal statusAt retrieveResult timeoutSeconds
      pollIntervalSeconds).retrieveCalled = false := by
  have main : pollUntilTerminal statusAt retrieveResult timeoutSeconds
      pollIntervalSeconds = PollResult.timedOut := by
    unfold pollUntilTerminal
    apply pollAux_timedOut_of_nonterminal
    intro j hj
    have hj' : j ≤ timeoutSeconds / pollIntervalSeconds :=
      Nat.lt_succ_iff.mp hj
    have hmul : j * pollIntervalSeconds ≤ timeoutSeconds :=
      (Nat.le_div_iff_mul_le hpos).mp hj'
    have := h (0 + j * pollIntervalSeconds) (by simpa using hmul)
    exact this
  exact ⟨main, by rw [main]; rfl⟩

/-- Witness for C9: a job that always reports processing, polled at
3-second intervals against a 200-second timeout. -/
theorem claim9_witness :
    pollUntilTerminal (fun _ => JobStatus.processing) Json.null 200 3
      = PollResult.timedOut ∧
    (pollUntilTerminal (fun _ => JobStatus.processing) Json.null 200 3).retrieveCalled
      = false :=
  claim9_poll_times_out_without_retrieve _ _ _ _ (by decide) (fun _ _ => rfl)

/-- Helper: the stripped text is nonempty exactly when the text has at
least one non-whitespace character. -/
theorem pyStrip_ne_empty_iff (s : String) :
    pyStrip s ≠ "" ↔ ∃ c ∈ s.toList, pyIsSpace c = false := by
  have hmk : ∀ l : List Char, (String.mk l = "") ↔ l = [] := by
    intro l
    constructor
    · intro h; exact congrArg String.data h
    · intro h; rw [h]
  have hdw : (∀ x ∈ s.toList.dropWhile pyIsSpace, pyIsSpace x = true) ↔
      (∀ x ∈ s.toList, pyIsSpace x = true) := by
    constructor
    · intro hall x hx
      have hx' : x ∈ s.toList.takeWhile pyIsSpace
          ++ s.toList.dropWhile pyIsSpace := by
        rw [List.takeWhile_append_dropWhile]; exact hx
      rcases List.mem_append.mp hx' with h1 | h2
      · exact List.mem_takeWhile_imp h1
      · exact hall x h2
    · intro hall x hx
      exact hall x ((List.dropWhile_sublist _).subset hx)
  rw [Ne, pyStrip, hmk, List.reverse_eq_nil_iff, List.dropWhile_eq_nil_iff]
  constructor
  · intro hne
    by_contra hcon
    push_neg at hcon
    apply hne
    intro x hx
    have hx' : x ∈ s.toList.dropWhile pyIsSpace := by
      rw [List.mem_reverse] at hx
      exact hx
    exact hdw.2 (fun y hy => by
      cases hpy : pyIsSpace y with
      | true => rfl
      | false => exact absurd hpy (hcon y hy)) x hx'
  · rintro ⟨c, hc, hcf⟩ hall
    have : pyIsSpace c = true := by
      apply hdw.1
      · intro x hx
        exact hall x (List.mem_reverse.mpr hx)
      · exact hc
    rw [this] at hcf
    simp at hcf

/-- Helper: on the processed branch, the displayed text, download
offer and no-text warning are all decided by whether the stripped
extracted text is empty. -/
theorem runExtract_processed_text_fields
    (inp : RunInput) (result : Json) (removeFails : Bool)
    (hu : inp.uploaded.isNone = false)
    (hv : (inp.horiz && !inp.vert) = false)
    (hs : (Json.pyGet result "status" Json.null).eqStr "processed" = true) :
    (runExtract inp (WhisperOutcome.ok result) removeFails).downloadOffered
      = (if pyStrip (extractedTextOf result) = "" then none
         else some (extractedTextOf result)) ∧
    (runExtract inp (WhisperOutcome.ok result) removeFails).displayedText
      = (if pyStrip (extractedTextOf result) = "" then none
         else some (extractedTextOf result)) ∧
    (runExtract inp (WhisperOutcome.ok result) removeFails).noTextWarning
      = (if pyStrip (extractedTextOf result) = "" then true else false) := by
  refine ⟨?_, ?_, ?_⟩ <;>
    · simp only [runExtract, hu, hv, hs]
      split <;> (try split) <;> (try split) <;> (try split) <;> simp_all

/-- C10: for every processed result, the no-text warning is shown and
no download or text is offered exactly when the extracted text has no
non-whitespace character, and the download is offered exactly when it
has at least one. -/
theorem claim10_download_iff_nonwhitespace
    (inp : RunInput) (result : Json) (removeFails : Bool)
    (hu : inp.uploaded.isNone = false)
    (hv : (inp.horiz && !inp.vert) = false)
    (hs : (Json.pyGet result "status" Json.null).eqStr "processed" = true) :
    ((runExtract inp (WhisperOutcome.ok result) removeFails).downloadOffered
        = some (extractedTextOf result)
      ↔ ∃ c ∈ (extractedTextOf result).toList, pyIsSpace c = false) ∧
    ((runExtract inp (WhisperOutcome.ok result) removeFails).noTextWarning
        = true
      ↔ ¬ ∃ c ∈ (extractedTextOf result).toList, pyIsSpace c = false) ∧
    ((runExtract inp (WhisperOutcome.ok result) removeFails).noTextWarning
        = true →
      (runExtract inp (WhisperOutcome.ok result)
        removeFails).downloadOffered = none ∧
      (runExtract inp (WhisperOutcome.ok result)
        removeFails).displayedText = none) := by
  obtain ⟨hd, ht, hw⟩ :=
    runExtract_processed_text_fields inp result removeFails hu hv hs
  have hiff := pyStrip_ne_empty_iff (extractedTextOf result)
  by_cases hstrip : pyStrip (extractedTextOf result) = ""
  · have hnoex : ¬ ∃ c ∈ (extractedTextOf result).toList,
        pyIsSpace c = false := by
      rw [← hiff]; simp [hstrip]
    refine ⟨?_, ?_, ?_⟩
    · rw [hd, if_pos hstrip]
      constructor
      · intro h; exact absurd h (by simp)
      · intro h; exact absurd h hnoex
    · rw [hw, if_pos hstrip]
      exact ⟨fun _ => hnoex, fun _ => rfl⟩
    · intro _; rw [hd, ht]; simp [hstrip]
  · have hex : ∃ c ∈ (extractedTextOf result).toList, pyIsSpace c = false :=
      hiff.1 hstrip
    refine ⟨?_, ?_, ?_⟩
    · rw [hd, if_neg hstrip]
      exact ⟨fun _ => hex, fun _ => rfl⟩
    · rw [hw, if_neg hstrip]
      constructor
      · intro h; simp at h
      · intro h; exact absurd hex h
    · intro hwarn; rw [hw] at hwarn; simp [hstrip] at hwarn

/-- Witness for C10 at a concrete processed payload with the
non-whitespace text "hello". -/
theorem claim10_witness :
    ((runExtract exampleInput (WhisperOutcome.ok payloadResultText)
        false).downloadOffered = some (extractedTextOf payloadResultText)
      ↔ ∃ c ∈ (extractedTextOf payloadResultText).toList,
          pyIsSpace c = false) ∧
    ((runExtract exampleInput (WhisperOutcome.ok payloadResultText)
        false).noTextWarning = true
      ↔ ¬ ∃ c ∈ (extractedTextOf payloadResultText).toList,
          pyIsSpace c = false) ∧
    ((runExtract exampleInput (WhisperOutcome.ok payloadResultText)
        false).noTextWarning = true →
      (runExtract exampleInput (WhisperOutcome.ok payloadResultText)
        false).downloadOffered = none ∧
      (runExtract exampleInput (WhisperOutcome.ok payloadResultText)
        false).displayedText = none) :=
  claim10_download_iff_nonwhitespace exampleInput payloadResultText false
    rfl rfl rfl
